import Mathlib

/-!
Verification of the request-orchestration and lookup component of the
vehicle-diagnostic backend (`src/app.py`), as a shallow embedding.

The embedding models:
- the code table as an association list built like a Python dict
  (last occurrence of a key wins);
- `load_codes` over an optional CSV file (a missing file models the caught
  `FileNotFoundError`; a present file carries named columns);
- `search_code` with Python truthiness of the retrieved description;
- `diagnose_vehicle` with Python list-indexing semantics for
  `diagnostic_methods[method_choice - 1]` (negative indices wrap, an index
  out of range is a raised `IndexError`, modelled as `none`), the external
  chatbot call as an oracle function, and an explicit event trace recording
  the order of the history append relative to the external call;
- `generate_report` returning the HTTP result string together with the
  content written to the report file (`none` when nothing is written);
- the markdown strip `re.sub(r"[*_#\x60~]", "", s)` as a character filter.
-/

namespace VDS

/-- Python list indexing `xs[i]`: a negative `i` counts from the end;
an index out of range raises `IndexError`, modelled as `none`. -/
def pyGet {α : Type} (xs : List α) (i : Int) : Option α :=
  if 0 ≤ i then xs.get? i.toNat
  else if 0 ≤ (xs.length : Int) + i then xs.get? ((xs.length : Int) + i).toNat
  else none

/-- Python `dict` built from a sequence of pairs: the last occurrence of a
key wins. `dictGet m k` models `m.get(k, None)`. -/
def dictGet (m : List (String × String)) (k : String) : Option String :=
  (m.reverse.find? (fun p => p.1 = k)).map Prod.snd

/-- A CSV file as read by pandas: a list of named columns with their data. -/
structure CsvFile where
  columns : List (String × List String)
deriving Repr

/-- `name in df.columns`. -/
def hasColumn (df : CsvFile) (name : String) : Bool :=
  df.columns.any (fun p => p.1 = name)

/-- `df[name]`: the data of the named column. -/
def getColumn (df : CsvFile) (name : String) : List String :=
  ((df.columns.find? (fun p => p.1 = name)).map Prod.snd).getD []

/-- Outcome of `load_codes`: either a loaded table, or the uncaught
`KeyError` raised when a required column is missing. -/
inductive LoadResult where
  | ok (codes : List (String × String))
  | keyError
deriving Repr, DecidableEq

/-- `load_codes` (src/app.py lines 26-37): reads the CSV; if both the
`code` and `description` columns are present, builds the dict from
`zip(df[code], df[description])`; otherwise raises `KeyError` (not caught).
A file that cannot be opened (`src = none`, the `FileNotFoundError` branch)
is caught and yields the empty table. -/
def load_codes (src : Option CsvFile) : LoadResult :=
  match src with
  | none => .ok []
  | some df =>
    if hasColumn df "code" && hasColumn df "description" then
      .ok (List.zip (getColumn df "code") (getColumn df "description"))
    else
      .keyError

/-- Python `str.upper()`: uppercase every character. -/
def pyUpper (s : String) : String :=
  String.mk (s.data.map Char.toUpper)

/-- `search_code` (src/app.py lines 39-45): looks up `code.upper()` in the
table; a missing key or a falsy (empty) description yields the miss
message, otherwise the two-line hit message. -/
def search_code (codes : List (String × String)) (code : String) : String :=
  match dictGet codes (pyUpper code) with
  | some description =>
    if description = "" then "Código " ++ pyUpper code ++ " não encontrado."
    else "Código: " ++ pyUpper code ++ "\nDescrição: " ++ description
  | none => "Código " ++ pyUpper code ++ " não encontrado."

/-- The fixed six-entry `diagnostic_methods` list (src/app.py lines 49-56). -/
def diagnostic_methods : List String :=
  [ "Verificar a Reclamação",
    "Determinar os Sintomas Relacionados",
    "Analisar os Sintomas Relacionados",
    "Isolar a Área do Problema",
    "Reparar a Área do Problema",
    "Certificar que a Operação Está Adequada" ]

/-- The `diagnosis` dict assembled by `diagnose_vehicle`, one field per key
in declaration order (src/app.py lines 61-68). `codigoFalha` is the raw
`dtc_code` value, which may be `None`. -/
structure Diagnosis where
  reclamacao : String
  metodo : String
  codigoFalha : Option String
  descricaoCodigo : String
  sintomas : String
  area : String
deriving Repr, DecidableEq

/-- Observable effects of one diagnose request, in program order:
an append to `diagnostics_history`, or the external chatbot call with its
returned suggestion. -/
inductive Event where
  | append (d : Diagnosis)
  | extCall (d : Diagnosis) (result : String)
deriving Repr, DecidableEq

/-- `True` exactly on `Event.append`. -/
def Event.isAppend : Event → Bool
  | .append _ => true
  | .extCall _ _ => false

/-- The value of `dtc_description` (src/app.py line 59):
`self.search_code(dtc_code) if dtc_code else "N/A"`, with Python truthiness
(`None` and the empty string are falsy). -/
def dtcDescriptionOf (codes : List (String × String)) : Option String → String
  | none => "N/A"
  | some s => if s = "" then "N/A" else search_code codes s

/-- What one successful `diagnose_vehicle` call produces: the assembled
record, the suggestion text, the updated history, and the trace of effects
in program order. -/
structure DiagnoseResult where
  diagnosis : Diagnosis
  suggestion : String
  history : List Diagnosis
  events : List Event
deriving Repr, DecidableEq

/-- `diagnose_vehicle` (src/app.py lines 47-75). `oracle` stands for the
external `get_chatbot_solution` call; `history` is `diagnostics_history`
before the call. The method label is `diagnostic_methods[method_choice - 1]`
under Python indexing; an `IndexError` is `none`. The record is appended to
the history (line 69) and then the chatbot is called (line 71); the event
trace records this order. -/
def diagnose_vehicle (codes : List (String × String)) (history : List Diagnosis)
    (oracle : Diagnosis → String) (customer_complaint : String)
    (method_choice : Int) (dtc_code : Option String)
    (related_symptoms problem_area : String) : Option DiagnoseResult :=
  match pyGet diagnostic_methods (method_choice - 1) with
  | none => none
  | some selected_method =>
    let dtc_description := dtcDescriptionOf codes dtc_code
    let diagnosis : Diagnosis :=
      ⟨customer_complaint, selected_method, dtc_code, dtc_description,
        related_symptoms, problem_area⟩
    let history2 := history ++ [diagnosis]
    let chatbot_suggestion := oracle diagnosis
    some ⟨diagnosis, chatbot_suggestion, history2,
      [Event.append diagnosis, Event.extCall diagnosis chatbot_suggestion]⟩

/-- Python `f"{value}"` on an optional string: `None` renders as `"None"`. -/
def pyStrOf : Option String → String
  | none => "None"
  | some s => s

/-- `last_diagnosis.items()`: the key-value pairs of the diagnosis dict in
declaration order (src/app.py lines 61-68). -/
def diagnosisItems (d : Diagnosis) : List (String × String) :=
  [ ("Reclamação do Cliente", d.reclamacao),
    ("Método de Diagnóstico", d.metodo),
    ("Código de Falha", pyStrOf d.codigoFalha),
    ("Descrição do Código", d.descricaoCodigo),
    ("Sintomas Relacionados", d.sintomas),
    ("Área do Problema", d.area) ]

/-- `generate_report` (src/app.py lines 126-139): first component is the
returned string, second is the content written to `diagnostic_report.txt`
(`none` when the history is empty and nothing is written). -/
def generate_report (history : List Diagnosis) : String × Option String :=
  match history.getLast? with
  | none => ("Nenhum diagnóstico disponível para gerar relatório.", none)
  | some last_diagnosis =>
    let report := (diagnosisItems last_diagnosis).foldl
      (fun acc kv => acc ++ kv.1 ++ ": " ++ kv.2 ++ "\n")
      "\n--- Relatório de Diagnóstico ---\n"
    ("Relatório gerado e salvo como \x27diagnostic_report.txt\x27", some report)

/-- One of the characters removed by `re.sub(r"[*_#\x60~]", "", ...)`. -/
def isMarkdownChar (c : Char) : Bool :=
  c == '*' || c == '_' || c == '#' || c == Char.ofNat 96 || c == '~'

/-- The markdown strip applied to the suggestion (src/app.py line 114):
deletes every `* _ # \x60 ~` character, keeping all others. -/
def strip_markdown (s : String) : String :=
  String.mk (s.data.filter (fun c => !(isMarkdownChar c)))

/-- Concrete record produced by a diagnose request with complaint `c`,
method choice 1, no DTC code, symptoms `s`, problem area `a`. -/
def dEx : Diagnosis :=
  ⟨"c", "Verificar a Reclamação", none, "N/A", "s", "a"⟩

/-- Concrete result of that diagnose request on empty table and history,
with an oracle that always answers `ok`. -/
def rEx : DiagnoseResult :=
  ⟨dEx, "ok", [dEx], [Event.append dEx, Event.extCall dEx "ok"]⟩

/-- Concrete record for the C1 counterexample run. -/
def d0 : Diagnosis :=
  ⟨"barulho no motor", "Verificar a Reclamação", none, "N/A",
    "vibração no volante", "motor"⟩

/-- C1 counterexample: on a concrete diagnose request the first observable
effect is the history append, which happens before the external suggestion
call, and the appended entry is the record alone, not a (record, suggestion)
pair — refuting the claim that the append happens only after the suggestion
call completes and stores the pair. -/
theorem C1_counterexample :
    (diagnose_vehicle [] [] (fun _ => "troque as velas") "barulho no motor" 1
        none "vibração no volante" "motor").map DiagnoseResult.events
      = some [Event.append d0, Event.extCall d0 "troque as velas"] := rfl

/-- C1 (amended): every successful diagnose request performs exactly one
history append; the entry appended is the DiagnosisRecord alone (without
the suggestion text), and the append happens before the external suggestion
call, not after it. -/
theorem C1_append_before_call (codes : List (String × String))
    (history : List Diagnosis) (oracle : Diagnosis → String)
    (cc rs pa : String) (m : Int) (dtc : Option String) (r : DiagnoseResult)
    (h : diagnose_vehicle codes history oracle cc m dtc rs pa = some r) :
    r.events = [Event.append r.diagnosis,
      Event.extCall r.diagnosis (oracle r.diagnosis)]
    ∧ r.history = history ++ [r.diagnosis]
    ∧ r.events.filter Event.isAppend = [Event.append r.diagnosis]
    ∧ r.suggestion = oracle r.diagnosis := by
  unfold diagnose_vehicle at h
  cases hp : pyGet diagnostic_methods (m - 1) with
  | none => simp [hp] at h
  | some sel =>
    simp only [hp] at h
    cases h
    exact ⟨rfl, rfl, rfl, rfl⟩

/-- Witness for C1_append_before_call at a concrete request. -/
theorem C1_append_before_call_witness :
    diagnose_vehicle [] [] (fun _ => "ok") "c" 1 none "s" "a" = some rEx
    ∧ (rEx.events = [Event.append rEx.diagnosis,
        Event.extCall rEx.diagnosis ((fun _ => "ok") rEx.diagnosis)]
      ∧ rEx.history = [] ++ [rEx.diagnosis]
      ∧ rEx.events.filter Event.isAppend = [Event.append rEx.diagnosis]
      ∧ rEx.suggestion = (fun _ => "ok") rEx.diagnosis) :=
  ⟨rfl, C1_append_before_call [] [] (fun _ => "ok") "c" "s" "a" 1 none rEx rfl⟩

/-- C2 counterexample: there is no InvalidMethodChoice fault — method choice
0 (outside 1..6) silently produces a record, and method choice 7 is the
IndexError crash (modelled as `none`). -/
theorem C2_counterexample :
    (diagnose_vehicle [] [] (fun _ => "ok") "c" 0 none "s" "a").isSome = true
    ∧ diagnose_vehicle [] [] (fun _ => "ok") "c" 7 none "s" "a" = none :=
  ⟨rfl, rfl⟩

/-- C2 (amended): diagnose_vehicle never fails with an InvalidMethodChoice
fault. For method choices at least 7 or at most -6 it raises IndexError
(modelled as `none`); for choices in -5..0 Python negative indexing makes it
silently produce a record. -/
theorem C2_out_of_range (codes : List (String × String))
    (history : List Diagnosis) (oracle : Diagnosis → String)
    (cc rs pa : String) (dtc : Option String) (m : Int) :
    ((7 ≤ m ∨ m ≤ -6) →
      diagnose_vehicle codes history oracle cc m dtc rs pa = none)
    ∧ (-5 ≤ m → m ≤ 0 →
      (diagnose_vehicle codes history oracle cc m dtc rs pa).isSome = true) := by
  constructor
  · intro hm
    have hlen : diagnostic_methods.length = 6 := rfl
    have hpy : pyGet diagnostic_methods (m - 1) = none := by
      unfold pyGet
      rcases hm with hm | hm
      · rw [if_pos (by omega)]
        exact List.get?_eq_none.mpr (by omega)
      · rw [if_neg (by omega), if_neg (by omega)]
    simp [diagnose_vehicle, hpy]
  · intro h1 h2
    interval_cases m <;> rfl

/-- Witness for C2_out_of_range at method choice -6. -/
theorem C2_out_of_range_witness :
    diagnose_vehicle [] [] (fun _ => "ok") "c" (-6) none "s" "a" = none :=
  (C2_out_of_range [] [] (fun _ => "ok") "c" "s" "a" none (-6)).1
    (Or.inr (by norm_num))

/-- C3 counterexample: table keys are not case-normalized at load. The code
`p0300` is present in the table, yet lookup of `p0300` uppercases only the
input and returns the miss-format string, not the hit-format string with
the description. -/
theorem C3_counterexample :
    dictGet [("p0300", "Random/Multiple Cylinder Misfire Detected")] "p0300"
      = some "Random/Multiple Cylinder Misfire Detected"
    ∧ search_code [("p0300", "Random/Multiple Cylinder Misfire Detected")]
        "p0300"
      = "Código P0300 não encontrado." :=
  ⟨rfl, by decide⟩

/-- C3 (amended): only the lookup input is uppercased; table keys are not
normalized. For every code whose uppercased form is a table key with a
non-empty description, lookup returns the hit-format two-line string with
that description; if the uppercased form is absent, or its description is
the empty (falsy) string, lookup returns the miss-format string. -/
theorem C3_lookup (codes : List (String × String)) (c d : String) :
    (dictGet codes (pyUpper c) = some d → d ≠ "" →
      search_code codes c = "Código: " ++ pyUpper c ++ "\nDescrição: " ++ d)
    ∧ (dictGet codes (pyUpper c) = none →
      search_code codes c = "Código " ++ pyUpper c ++ " não encontrado.")
    ∧ (dictGet codes (pyUpper c) = some "" →
      search_code codes c = "Código " ++ pyUpper c ++ " não encontrado.") := by
  refine ⟨fun h hd => by simp [search_code, h, hd],
    fun h => by simp [search_code, h],
    fun h => by simp [search_code, h]⟩

/-- Witness for C3_lookup on the spec scenario table. -/
theorem C3_lookup_witness :
    dictGet [("P0300", "Random/Multiple Cylinder Misfire Detected")]
        (pyUpper "p0300")
      = some "Random/Multiple Cylinder Misfire Detected"
    ∧ search_code [("P0300", "Random/Multiple Cylinder Misfire Detected")]
        "p0300"
      = "Código: " ++ pyUpper "p0300" ++ "\nDescrição: "
        ++ "Random/Multiple Cylinder Misfire Detected" :=
  ⟨by decide,
    (C3_lookup [("P0300", "Random/Multiple Cylinder Misfire Detected")]
      "p0300" "Random/Multiple Cylinder Misfire Detected").1
      (by decide) (by decide)⟩

/-- C4: for every method choice in 1..6 the request succeeds and the
assembled record carries exactly the corresponding 1-based label of the
fixed six-entry diagnostic_methods enumeration. -/
theorem C4_method_label (codes : List (String × String))
    (history : List Diagnosis) (oracle : Diagnosis → String)
    (cc rs pa : String) (dtc : Option String) (m : Int)
    (h1 : 1 ≤ m) (h2 : m ≤ 6) :
    ∃ r, diagnose_vehicle codes history oracle cc m dtc rs pa = some r
      ∧ diagnostic_methods.get? (m - 1).toNat = some r.diagnosis.metodo := by
  interval_cases m <;> exact ⟨_, rfl, rfl⟩

/-- Witness for C4_method_label at method choice 4. -/
theorem C4_method_label_witness :
    1 ≤ (4 : Int) ∧ (4 : Int) ≤ 6
    ∧ ∃ r, diagnose_vehicle [] [] (fun _ => "ok") "c" 4 none "s" "a" = some r
      ∧ diagnostic_methods.get? ((4 : Int) - 1).toNat
        = some r.diagnosis.metodo :=
  ⟨by norm_num, by norm_num,
    C4_method_label [] [] (fun _ => "ok") "c" "s" "a" none 4
      (by norm_num) (by norm_num)⟩

/-- C5: when the DTC code is absent or the empty (falsy) string, the
assembled record has dtcDescription literally `N/A`, whatever the table is;
otherwise the field is exactly the rendered output of search_code. -/
theorem C5_dtc_description (codes : List (String × String))
    (history : List Diagnosis) (oracle : Diagnosis → String)
    (cc rs pa : String) (m : Int) (dtc : Option String) (r : DiagnoseResult)
    (h : diagnose_vehicle codes history oracle cc m dtc rs pa = some r) :
    ((dtc = none ∨ dtc = some "") → r.diagnosis.descricaoCodigo = "N/A")
    ∧ (∀ s, dtc = some s → s ≠ "" →
      r.diagnosis.descricaoCodigo = search_code codes s) := by
  unfold diagnose_vehicle at h
  cases hp : pyGet diagnostic_methods (m - 1) with
  | none => simp [hp] at h
  | some sel =>
    simp only [hp] at h
    cases h
    constructor
    · rintro (rfl | rfl) <;> rfl
    · rintro s rfl hs
      simp [dtcDescriptionOf, hs]

/-- Witness for C5_dtc_description with an absent DTC code. -/
theorem C5_dtc_description_witness :
    diagnose_vehicle [] [] (fun _ => "ok") "c" 1 none "s" "a" = some rEx
    ∧ rEx.diagnosis.descricaoCodigo = "N/A" :=
  ⟨rfl,
    (C5_dtc_description [] [] (fun _ => "ok") "c" "s" "a" 1 none rEx rfl).1
      (Or.inl rfl)⟩

/-- C6: search_code is case-insensitive in its input — two codes with the
same uppercasing get identical output, whatever the table is. -/
theorem C6_case_insensitive (codes : List (String × String)) (s t : String)
    (h : pyUpper s = pyUpper t) :
    search_code codes s = search_code codes t := by
  simp [search_code, h]

/-- Witness for C6_case_insensitive on p0300 versus P0300. -/
theorem C6_case_insensitive_witness :
    pyUpper "p0300" = pyUpper "P0300"
    ∧ search_code [("P0300", "Random/Multiple Cylinder Misfire Detected")]
        "p0300"
      = search_code [("P0300", "Random/Multiple Cylinder Misfire Detected")]
        "P0300" :=
  ⟨by decide,
    C6_case_insensitive
      [("P0300", "Random/Multiple Cylinder Misfire Detected")]
      "p0300" "P0300" (by decide)⟩

/-- C7: a source that cannot be opened yields the empty table without
crashing, on which every lookup reports not found; a source missing the
code or description column makes load fail with the KeyError schema
fault. -/
theorem C7_load_errors :
    load_codes none = LoadResult.ok []
    ∧ (∀ c, search_code [] c = "Código " ++ pyUpper c ++ " não encontrado.")
    ∧ (∀ df : CsvFile,
        (hasColumn df "code" && hasColumn df "description") = false →
        load_codes (some df) = LoadResult.keyError) := by
  refine ⟨rfl, fun c => rfl, fun df h => ?_⟩
  simp [load_codes, h]

/-- Witness for C7_load_errors on a file with a single wrong column. -/
theorem C7_load_errors_witness :
    (hasColumn ⟨[("codigo", [])]⟩ "code"
      && hasColumn ⟨[("codigo", [])]⟩ "description") = false
    ∧ load_codes (some ⟨[("codigo", [])]⟩) = LoadResult.keyError :=
  ⟨by decide, C7_load_errors.2.2 ⟨[("codigo", [])]⟩ (by decide)⟩

/-- C8: generate_report on an empty history returns the fixed message and
writes nothing; on a non-empty history it writes exactly the banner
followed by one key: value line per field of the most recent entry, in
declaration order, and returns the confirmation string. -/
theorem C8_generate_report (history : List Diagnosis) :
    (history = [] →
      generate_report history
        = ("Nenhum diagnóstico disponível para gerar relatório.", none))
    ∧ (∀ d, history.getLast? = some d →
      generate_report history
        = ("Relatório gerado e salvo como \x27diagnostic_report.txt\x27",
          some ("\n--- Relatório de Diagnóstico ---\n"
            ++ ("Reclamação do Cliente" ++ ": " ++ d.reclamacao ++ "\n")
            ++ ("Método de Diagnóstico" ++ ": " ++ d.metodo ++ "\n")
            ++ ("Código de Falha" ++ ": " ++ pyStrOf d.codigoFalha ++ "\n")
            ++ ("Descrição do Código" ++ ": " ++ d.descricaoCodigo ++ "\n")
            ++ ("Sintomas Relacionados" ++ ": " ++ d.sintomas ++ "\n")
            ++ ("Área do Problema" ++ ": " ++ d.area ++ "\n")))) := by
  constructor
  · rintro rfl
    rfl
  · intro d hd
    unfold generate_report
    rw [hd]
    simp only [diagnosisItems, List.foldl_cons, List.foldl_nil,
      String.append_assoc]

/-- Witness for C8_generate_report on a one-entry history. -/
theorem C8_generate_report_witness :
    [dEx].getLast? = some dEx
    ∧ generate_report [dEx]
      = ("Relatório gerado e salvo como \x27diagnostic_report.txt\x27",
        some ("\n--- Relatório de Diagnóstico ---\n"
          ++ ("Reclamação do Cliente" ++ ": " ++ dEx.reclamacao ++ "\n")
          ++ ("Método de Diagnóstico" ++ ": " ++ dEx.metodo ++ "\n")
          ++ ("Código de Falha" ++ ": " ++ pyStrOf dEx.codigoFalha ++ "\n")
          ++ ("Descrição do Código" ++ ": " ++ dEx.descricaoCodigo ++ "\n")
          ++ ("Sintomas Relacionados" ++ ": " ++ dEx.sintomas ++ "\n")
          ++ ("Área do Problema" ++ ": " ++ dEx.area ++ "\n"))) :=
  ⟨rfl, (C8_generate_report [dEx]).2 dEx rfl⟩

/-- C9: the markdown strip is idempotent — stripping twice equals stripping
once, for every string. -/
theorem C9_strip_idempotent (s : String) :
    strip_markdown (strip_markdown s) = strip_markdown s := by
  simp [strip_markdown, List.filter_filter]

/-- C10: a diagnose request with method choice 0 does not fail — Python
negative indexing selects the sixth label, so the call behaves exactly as
if method 6 had been chosen. -/
theorem C10_choice_zero (codes : List (String × String))
    (history : List Diagnosis) (oracle : Diagnosis → String)
    (cc rs pa : String) (dtc : Option String) :
    diagnose_vehicle codes history oracle cc 0 dtc rs pa
      = diagnose_vehicle codes history oracle cc 6 dtc rs pa
    ∧ ∃ r, diagnose_vehicle codes history oracle cc 0 dtc rs pa = some r
      ∧ r.diagnosis.metodo = "Certificar que a Operação Está Adequada" :=
  ⟨rfl, _, rfl, rfl⟩

end VDS
